import Mathlib

/-!
Shallow embedding of the VueSoftphone call-control layer.

The repository exposes two provider bindings of one contact-service
contract: an Amazon Connect binding
(src/services/providers/AmazonConnect/contactService.js) and a Twilio
binding (src/services/providers/Twilio/contactService.js).  Both keep a
module-level list of pending transfer records and delegate vendor
actions to callback-style APIs.  Here each operation is translated into
a pure Lean function: the vendor outcome of every callback (success or
failure, plus the vendor error text) becomes an explicit argument, a
rejected promise becomes `Except.error` carrying the exact message the
source builds, and the module-level `pendingTransfers` list is passed in
and returned explicitly.
-/

/-- Single-quote character, used verbatim inside some source error messages. -/
def quoteChar : String := String.mk [Char.ofNat 39]

/-- Boolean test that an `Except` result is a success. -/
def exceptOk {α : Type} : Except String α → Bool
  | .ok _ => true
  | .error _ => false

/-- One entry of the DISPOSITION_CODES catalog. -/
structure DispositionCode where
  id : String
  label : String
deriving DecidableEq

/-- One element of the module-level pendingTransfers list.  JS records carry
either a phoneNumber or a queueId (and, in the Twilio binding, a
conferenceId); absent fields are `none`.  An absent isConference field is
modelled as `false` (it is only ever read as a truthy flag). -/
structure TransferRecord where
  connectionId : String
  phoneNumber : Option String
  queueId : Option String
  conferenceId : Option String
  isConference : Bool
  timestamp : Nat
deriving DecidableEq

/-- The record update performed by mergeConnections on every pending record:
the JS spread keeps all fields and sets isConference to true. -/
def setConference (t : TransferRecord) : TransferRecord :=
  { t with isConference := true }

namespace AC

/-- One vendor connection object of the Amazon Connect contact, as observed
through getConnectionId, getType and getStatus. -/
structure Connection where
  connectionId : String
  ctype : String
  status : String
deriving DecidableEq

/-- The vendor contact instance: its connection list (getConnections), its
agent connection (getAgentConnection) and the id of its initial connection
(getInitialConnection), which is the customer leg of an inbound call. -/
structure Contact where
  connections : List Connection
  agentConnection : Option Connection
  initialConnectionId : Option String
deriving DecidableEq

/-- DISPOSITION_CODES of the Amazon Connect contactService. -/
def DISPOSITION_CODES : List DispositionCode :=
  [⟨"resolved", "Issue Resolved"⟩,
   ⟨"callback", "Callback Required"⟩,
   ⟨"escalated", "Escalated to Supervisor"⟩,
   ⟨"voicemail", "Left Voicemail"⟩,
   ⟨"wrong_number", "Wrong Number"⟩,
   ⟨"no_answer", "No Answer"⟩,
   ⟨"technical_issue", "Technical Issue"⟩,
   ⟨"follow_up", "Follow-up Required"⟩]

/-- mergeConnections of the Amazon Connect binding.  Rejects when no contact
instance exists; rejects when getConnections reports fewer than 3 legs;
otherwise delegates to the vendor merge and, on success, maps every pending
record through the spread that sets isConference. -/
def mergeConnections (contact : Option Contact) (vendorOk : Bool) (vendorErr : String)
    (pending : List TransferRecord) : Except String (List TransferRecord) :=
  match contact with
  | none => .error "No contact instance available for merging connections."
  | some c =>
    if c.connections.length < 3 then
      .error "Not enough connections to merge into a conference."
    else if vendorOk then
      .ok (pending.map setConference)
    else
      .error ("Failed to merge connections: " ++ vendorErr)

/-- Outcome of removeFromConference: the settled promise, the resulting
pendingTransfers list, and the id of the connection on which the vendor
destroy call was invoked (none when no connection matched). -/
structure RemoveResult where
  res : Except String Bool
  pending : List TransferRecord
  destroyedId : Option String

/-- removeFromConference of the Amazon Connect binding: finds the connection
whose getConnectionId matches, with no inspection of its type or role, and
invokes destroy on it; on vendor success the matching pending records are
filtered out. -/
def removeFromConference (contact : Option Contact) (cid : String) (destroyOk : Bool)
    (destroyErr : String) (pending : List TransferRecord) : RemoveResult :=
  match contact with
  | none => ⟨.error "No active contact available.", pending, none⟩
  | some c =>
    match c.connections.find? (fun conn => conn.connectionId == cid) with
    | none => ⟨.error ("Connection with ID " ++ cid ++ " not found."), pending, none⟩
    | some conn =>
      if destroyOk then
        ⟨.ok true, pending.filter (fun t => t.connectionId != cid), some conn.connectionId⟩
      else
        ⟨.error ("Failed to remove connection: " ++ destroyErr), pending, some conn.connectionId⟩

/-- Outcome of completeTransfer: the settled promise and the resulting
pendingTransfers list. -/
structure CompleteResult where
  res : Except String Bool
  pending : List TransferRecord

/-- completeTransfer of the Amazon Connect binding.  With an explicit
connectionId the code filters the pending record out BEFORE invoking the
vendor destroy on the agent connection; without one it destroys the agent
connection and clears all pending records only in the success callback. -/
def completeTransfer (contact : Option Contact) (cid : Option String) (destroyOk : Bool)
    (destroyErr : String) (pending : List TransferRecord) : CompleteResult :=
  match contact with
  | none => ⟨.error "No contact instance available to complete transfer.", pending⟩
  | some c =>
    match cid with
    | some id =>
      match c.connections.find? (fun conn => conn.connectionId == id) with
      | none => ⟨.error ("Connection with ID " ++ id ++ " not found."), pending⟩
      | some _ =>
        let pending2 := pending.filter (fun t => t.connectionId != id)
        match c.agentConnection with
        | some _ =>
          if destroyOk then ⟨.ok true, pending2⟩
          else ⟨.error ("Failed to complete transfer: " ++ destroyErr), pending2⟩
        | none => ⟨.ok true, pending2⟩
    | none =>
      match c.agentConnection with
      | some _ =>
        if destroyOk then ⟨.ok true, []⟩
        else ⟨.error ("Failed to complete transfer: " ++ destroyErr), pending⟩
      | none => ⟨.ok true, []⟩

/-- The private helper behind holdCall and resumeCall: validates the contact,
requires an agent connection, requires its status to equal the expected one,
then invokes the vendor action. -/
def handleCallAction (contact : Option Contact) (action expectedStatus successMsg errorMsg : String)
    (vendorOk : Bool) (vendorErr : String) : Except String String :=
  match contact with
  | none => .error "No contact instance available."
  | some c =>
    match c.agentConnection with
    | none => .error ("No agent connection available to " ++ action ++ ".")
    | some conn =>
      if conn.status != expectedStatus then
        .error ("Connection is in " ++ quoteChar ++ conn.status ++ quoteChar ++ " state, but " ++ quoteChar ++
          expectedStatus ++ quoteChar ++ " is required to " ++ action ++ ".")
      else if vendorOk then .ok successMsg
      else .error (errorMsg ++ " Error: " ++ vendorErr)

/-- holdCall of the Amazon Connect binding. -/
def holdCall (contact : Option Contact) (vendorOk : Bool) (vendorErr : String) :
    Except String String :=
  handleCallAction contact "hold" "connected" "Call successfully put on hold."
    "Failed to put call on hold." vendorOk vendorErr

/-- resumeCall of the Amazon Connect binding. -/
def resumeCall (contact : Option Contact) (vendorOk : Bool) (vendorErr : String) :
    Except String String :=
  handleCallAction contact "resume" "hold" "Call successfully resumed."
    "Failed to resume the call." vendorOk vendorErr

/-- transferToPhoneNumber of the Amazon Connect binding. -/
def transferToPhoneNumber (contact : Option Contact) (vendorOk : Bool) (vendorErr : String) :
    Except String Bool :=
  match contact with
  | none => .error "No contact instance available for transfer."
  | some _ =>
    if vendorOk then .ok true else .error ("Failed to transfer call: " ++ vendorErr)

/-- completeAfterCallWork of the Amazon Connect binding: rejects when no
contact instance exists; otherwise optionally writes the disposition (its
rejection is caught and rewrapped), then completes the contact. -/
def completeAfterCallWork (contact : Option Contact) (dispositionId : Option String)
    (updateAttrsOk : Bool) (updateErr : String) (completeOk : Bool) (completeErr : String) :
    Except String Bool :=
  match contact with
  | none => .error "No contact instance available."
  | some _ =>
    match dispositionId with
    | some _ =>
      if updateAttrsOk then
        if completeOk then .ok true
        else .error ("Failed to complete After Call Work: " ++ completeErr)
      else
        .error ("Error completing After Call Work: " ++ "Error: Failed to set disposition code: "
          ++ updateErr)
    | none =>
      if completeOk then .ok true
      else .error ("Failed to complete After Call Work: " ++ completeErr)

/-- Trace of endContact: the settled promise, plus whether each of its two
sub-steps (the destroy-agent-leg promise, the complete-and-exit-ACW promise)
was invoked at all. -/
structure EndContactTrace where
  result : Except String Bool
  destroyAttempted : Bool
  completeAttempted : Bool

/-- endContact of the Amazon Connect binding: an await chain inside a
try/catch.  Step one destroys the agent connection when present; step two
completes the contact and exits ACW through the agent service (agent
instance lookup, routable state lookup, setState). -/
def endContact (contactPresent agentConnPresent destroyOk : Bool) (destroyErr : String)
    (completeOk : Bool) (completeErr : String) (agentPresent routablePresent setStateOk : Bool)
    (setStateErr : String) : EndContactTrace :=
  if !contactPresent then
    ⟨.error "No contact instance available to end.", false, false⟩
  else
    let step1 : Except String Bool :=
      if agentConnPresent then
        if destroyOk then .ok true
        else .error ("Failed to destroy agent connection: " ++ destroyErr)
      else .ok true
    match step1 with
    | .error e => ⟨.error ("Failed to end contact: " ++ "Error: " ++ e), true, false⟩
    | .ok _ =>
      let step2 : Except String Bool :=
        if completeOk then
          if !agentPresent then
            .error "Agent instance not found while attempting to exit AfterCallWork."
          else if !routablePresent then
            .error "Available state not found for agent."
          else if setStateOk then .ok true
          else .error ("Failed to set agent state: " ++ setStateErr)
        else .error ("Failed to complete contact: " ++ completeErr)
      match step2 with
      | .error e => ⟨.error ("Failed to end contact: " ++ "Error: " ++ e), true, true⟩
      | .ok _ => ⟨.ok true, true, true⟩

end AC

namespace Twilio

/-- DISPOSITION_CODES of the Twilio contactService. -/
def DISPOSITION_CODES : List DispositionCode :=
  [⟨"resolved", "Issue Resolved"⟩,
   ⟨"callback", "Callback Required"⟩,
   ⟨"escalated", "Escalated to Supervisor"⟩,
   ⟨"voicemail", "Left Voicemail"⟩,
   ⟨"wrong_number", "Wrong Number"⟩,
   ⟨"no_answer", "No Answer"⟩,
   ⟨"technical_issue", "Technical Issue"⟩,
   ⟨"follow_up", "Follow-up Required"⟩]

/-- One element of the list getActiveConnections resolves with in the Twilio
binding: connectionId, type, state.type and endpoint.address. -/
structure ConnInfo where
  connectionId : String
  ctype : String
  stateType : String
  address : Option String
deriving DecidableEq

/-- The observable parameters of the active Twilio connection used by
getActiveConnections: the CallSid and From parameters. -/
structure ContactState where
  callSid : String
  fromNumber : String
deriving DecidableEq

/-- The agent entry getActiveConnections builds first. -/
def agentLeg (callSid : String) (agentExtension : Option String) : ConnInfo :=
  ⟨"agent-" ++ callSid, "agent", "connected", agentExtension⟩

/-- The customer entry getActiveConnections builds second. -/
def customerLeg (callSid : String) (fromNumber : String) : ConnInfo :=
  ⟨"customer-" ++ callSid, "customer", "connected", some fromNumber⟩

/-- The participant entries getActiveConnections appends: one per pending
transfer whose isConference flag is set, in list order. -/
def participantLegs (pending : List TransferRecord) : List ConnInfo :=
  (pending.filter (fun t => t.isConference)).map
    (fun t => ⟨t.connectionId, "participant", "connected", t.phoneNumber⟩)

/-- getActiveConnections of the Twilio binding: agent entry, then customer
entry, then the conference participants taken from pendingTransfers. -/
def getActiveConnections (contact : Option ContactState) (agentExtension : Option String)
    (pending : List TransferRecord) : Except String (List ConnInfo) :=
  match contact with
  | none => .error "No active contact available."
  | some c =>
    .ok (agentLeg c.callSid agentExtension :: customerLeg c.callSid c.fromNumber ::
      participantLegs pending)

/-- mergeConnections of the Twilio binding: rejects without a contact, rejects
when pendingTransfers is empty, otherwise maps every record through the
spread that sets isConference. -/
def mergeConnections (contactPresent : Bool) (pending : List TransferRecord) :
    Except String (List TransferRecord) :=
  if !contactPresent then .error "No contact instance available for merging connections."
  else if pending.length < 1 then .error "Not enough connections to merge into a conference."
  else .ok (pending.map setConference)

/-- removeFromConference of the Twilio binding: looks the id up among the
pendingTransfers records only (the agent and customer entries are never
candidates) and filters the match out. -/
def removeFromConference (contactPresent : Bool) (cid : String)
    (pending : List TransferRecord) : (Except String Bool) × List TransferRecord :=
  if !contactPresent then (.error "No active contact available.", pending)
  else
    match pending.find? (fun t => t.connectionId == cid) with
    | none => (.error ("Connection with ID " ++ cid ++ " not found."), pending)
    | some _ => (.ok true, pending.filter (fun t => t.connectionId != cid))

/-- Outcome of the Twilio completeTransfer: the settled promise, the
resulting pendingTransfers list and the record the code selected as the
transfer to complete. -/
structure TransferOutcome where
  res : Except String Bool
  pending : List TransferRecord
  target : Option TransferRecord

/-- completeTransfer of the Twilio binding: with an id it selects and filters
the matching record; without one it selects the element at index length-1
(the most recently pushed record) and clears the whole list. -/
def completeTransfer (contactPresent : Bool) (cid : Option String)
    (pending : List TransferRecord) : TransferOutcome :=
  if !contactPresent then
    ⟨.error "No contact instance available to complete transfer.", pending, none⟩
  else
    match cid with
    | some id =>
      match pending.find? (fun t => t.connectionId == id) with
      | none => ⟨.error ("Connection with ID " ++ id ++ " not found."), pending, none⟩
      | some t => ⟨.ok true, pending.filter (fun r => r.connectionId != id), some t⟩
    | none => ⟨.ok true, [], pending.getLast?⟩

/-- completeAfterCallWork of the Twilio binding.  There is NO contact-instance
check: only the optional disposition write consults the contact, and the
exit-ACW step only consults the agent worker. -/
def completeAfterCallWork (contactPresent : Bool) (dispositionId : Option String)
    (agentPresent availableActivityPresent updateOk : Bool) (updateErr : String) :
    Except String Bool :=
  let exitStep : Except String Bool :=
    if !agentPresent then
      .error ("Error completing After Call Work: " ++ "Error: Agent instance not found.")
    else if !availableActivityPresent then
      .error ("Error completing After Call Work: " ++ "Error: Available activity not found.")
    else if updateOk then .ok true
    else
      .error ("Error completing After Call Work: " ++ "Error: Failed to exit After Call Work: "
        ++ updateErr)
  match dispositionId with
  | some _ =>
    if !contactPresent then
      .error ("Error completing After Call Work: " ++ "Error: No contact instance available.")
    else exitStep
  | none => exitStep

/-- The record warmTransferToPhoneNumber pushes. -/
def warmPhoneRecord (cid phone confId : String) (ts : Nat) : TransferRecord :=
  ⟨cid, some phone, none, some confId, false, ts⟩

/-- The record warmTransferToQueue pushes. -/
def warmQueueRecord (cid qid confId : String) (ts : Nat) : TransferRecord :=
  ⟨cid, none, some qid, some confId, false, ts⟩

/-- The record initiateConference pushes (isConference set at creation). -/
def conferenceRecord (cid phone confId : String) (ts : Nat) : TransferRecord :=
  ⟨cid, some phone, none, some confId, true, ts⟩

/-- The operations of the Twilio binding that touch the pendingTransfers
list, abstracted over their arguments. -/
inductive LedgerOp where
  | warmPhone (cid phone confId : String) (ts : Nat)
  | warmQueue (cid qid confId : String) (ts : Nat)
  | addConference (cid phone confId : String) (ts : Nat)
  | completeWith (cid : String)
  | completeNoId
  | removeParticipant (cid : String)
  | merge

/-- The record an operation pushes onto pendingTransfers, when it pushes one. -/
def pushedRecord : LedgerOp → Option TransferRecord
  | .warmPhone c p cf t => some (warmPhoneRecord c p cf t)
  | .warmQueue c q cf t => some (warmQueueRecord c q cf t)
  | .addConference c p cf t => some (conferenceRecord c p cf t)
  | _ => none

/-- Effect of one operation on pendingTransfers, with an active contact.  The
failure paths of completeTransfer, removeFromConference and mergeConnections
leave the list untouched, which the corresponding branches reproduce. -/
def applyOp (pending : List TransferRecord) : LedgerOp → List TransferRecord
  | .warmPhone c p cf t => pending ++ [warmPhoneRecord c p cf t]
  | .warmQueue c q cf t => pending ++ [warmQueueRecord c q cf t]
  | .addConference c p cf t => pending ++ [conferenceRecord c p cf t]
  | .completeWith cid => (completeTransfer true (some cid) pending).pending
  | .completeNoId => (completeTransfer true none pending).pending
  | .removeParticipant cid => (removeFromConference true cid pending).2
  | .merge =>
    match mergeConnections true pending with
    | .ok l => l
    | .error _ => pending

/-- pendingTransfers after a sequence of operations, starting from the empty
list a fresh contact begins with. -/
def runOps (ops : List LedgerOp) : List TransferRecord :=
  ops.foldl applyOp []

/-- All records pushed by a sequence of operations, in push order. -/
def insertedRecords (ops : List LedgerOp) : List TransferRecord :=
  ops.filterMap pushedRecord

end Twilio

/-- Projection of a pending-transfer list to its connection ids, in order. -/
def recIds (l : List TransferRecord) : List String :=
  l.map (fun t => t.connectionId)

/-- A merged pending list differs from the original only in the isConference
flag: same length, and the per-record connectionId, phoneNumber, queueId,
conferenceId and timestamp columns are unchanged, while every record is now
flagged as a conference member. -/
def confFrameOnly (orig merged : List TransferRecord) : Prop :=
  merged.length = orig.length ∧
  merged.map (fun t => t.connectionId) = orig.map (fun t => t.connectionId) ∧
  merged.map (fun t => t.phoneNumber) = orig.map (fun t => t.phoneNumber) ∧
  merged.map (fun t => t.queueId) = orig.map (fun t => t.queueId) ∧
  merged.map (fun t => t.conferenceId) = orig.map (fun t => t.conferenceId) ∧
  merged.map (fun t => t.timestamp) = orig.map (fun t => t.timestamp) ∧
  ∀ t ∈ merged, t.isConference = true

theorem confFrameOnly_map_setConference (orig : List TransferRecord) :
    confFrameOnly orig (orig.map setConference) := by
  refine ⟨List.length_map _ _, ?_, ?_, ?_, ?_, ?_, ?_⟩
  · simp [List.map_map]; intro a _; rfl
  · simp [List.map_map]; intro a _; rfl
  · simp [List.map_map]; intro a _; rfl
  · simp [List.map_map]; intro a _; rfl
  · simp [List.map_map]; intro a _; rfl
  · intro t ht
    rcases List.mem_map.mp ht with ⟨a, _, rfl⟩
    rfl

theorem mergeFailMsg_ne (e : String) :
    "Failed to merge connections: " ++ e ≠ "Not enough connections to merge into a conference." := by
  intro h
  have h2 := congrArg (fun s => s.data.head?) h
  have hL : ("Failed to merge connections: " ++ e).data.head? = some (Char.ofNat 70) := rfl
  have hR : ("Not enough connections to merge into a conference." : String).data.head? =
      some (Char.ofNat 78) := rfl
  simp only [hL, hR] at h2
  exact absurd h2 (by decide)

/-- Claim C1: with an active contact, mergeConnections rejects with the
insufficient-participants error exactly when fewer than 3 connection legs are
present, whatever the roles of the legs.  In the Amazon Connect binding the
test is getConnections().length < 3, with no inspection of any leg type; in
the Twilio binding the legs are the agent leg, the customer leg and one per
pending record, so its pendingTransfers.length < 1 test is the same bound on
2 + pendingTransfers.length legs. -/
theorem claim_C1_merge_insufficient_iff (c : AC.Contact) (vendorOk : Bool)
    (vendorErr : String) (pending pendingT : List TransferRecord) :
    ((AC.mergeConnections (some c) vendorOk vendorErr pending =
        .error "Not enough connections to merge into a conference.") ↔
      c.connections.length < 3) ∧
    ((Twilio.mergeConnections true pendingT =
        .error "Not enough connections to merge into a conference.") ↔
      2 + pendingT.length < 3) := by
  constructor
  · unfold AC.mergeConnections
    by_cases h3 : c.connections.length < 3
    · simp [h3]
    · simp only [h3, if_false]
      cases vendorOk with
      | true => simp [h3]
      | false => simp [h3, mergeFailMsg_ne vendorErr]
  · unfold Twilio.mergeConnections
    by_cases h1 : pendingT.length < 1
    · simp [h1]
      omega
    · simp [h1, mergeFailMsg_ne]
      omega

/-- Claim C9: the Amazon Connect and Twilio bindings expose the same
disposition-code catalog: equal lists, whose ids are exactly the 8 entries
resolved, callback, escalated, voicemail, wrong_number, no_answer,
technical_issue, follow_up, in this order. -/
theorem claim_C9_disposition_catalogs_equal :
    AC.DISPOSITION_CODES = Twilio.DISPOSITION_CODES ∧
    AC.DISPOSITION_CODES.map (fun d => d.id) =
      ["resolved", "callback", "escalated", "voicemail", "wrong_number", "no_answer",
       "technical_issue", "follow_up"] ∧
    AC.DISPOSITION_CODES.length = 8 :=
  ⟨rfl, rfl, rfl⟩

/-- Claim C10: when mergeConnections resolves, the pending records change only
in their isConference flag: record count, order, connection ids, targets and
timestamps are all preserved, in both bindings. -/
theorem claim_C10_merge_frame (c : AC.Contact) (vendorOk : Bool) (vendorErr : String)
    (pending pendingT : List TransferRecord) :
    (∀ l, AC.mergeConnections (some c) vendorOk vendorErr pending = .ok l →
      confFrameOnly pending l) ∧
    (∀ l, Twilio.mergeConnections true pendingT = .ok l → confFrameOnly pendingT l) := by
  constructor
  · intro l h
    unfold AC.mergeConnections at h
    by_cases h3 : c.connections.length < 3
    · simp [h3] at h
    · simp only [h3, if_false] at h
      cases vendorOk with
      | true =>
        simp only [if_true] at h
        cases h
        exact confFrameOnly_map_setConference pending
      | false => simp at h
  · intro l h
    unfold Twilio.mergeConnections at h
    by_cases h1 : pendingT.length < 1
    · simp [h1] at h
    · simp only [h1, if_false, Bool.not_true] at h
      simp at h
      cases h
      exact confFrameOnly_map_setConference pendingT

/-- Witness for claim C10 at a concrete input. -/
theorem claim_C10_witness :
    confFrameOnly [⟨"conn-1", some "+15551234567", none, none, false, 7⟩]
      [setConference ⟨"conn-1", some "+15551234567", none, none, false, 7⟩] :=
  (claim_C10_merge_frame
      ⟨[⟨"a", "inbound", "connected"⟩, ⟨"b", "agent", "connected"⟩,
        ⟨"p", "outbound", "connected"⟩], some ⟨"b", "agent", "connected"⟩, some "a"⟩
      true "" [⟨"conn-1", some "+15551234567", none, none, false, 7⟩] []).1
    [setConference ⟨"conn-1", some "+15551234567", none, none, false, 7⟩] rfl

theorem recIds_applyOp_sublist (pending : List TransferRecord) (op : Twilio.LedgerOp) :
    (recIds (Twilio.applyOp pending op)).Sublist
      (recIds pending ++ recIds (Twilio.pushedRecord op).toList) := by
  cases op with
  | warmPhone c p cf t =>
    simp [Twilio.applyOp, Twilio.pushedRecord, recIds]
  | warmQueue c q cf t =>
    simp [Twilio.applyOp, Twilio.pushedRecord, recIds]
  | addConference c p cf t =>
    simp [Twilio.applyOp, Twilio.pushedRecord, recIds]
  | completeWith cid =>
    simp only [Twilio.applyOp, Twilio.pushedRecord, Option.toList, recIds, List.append_nil]
    unfold Twilio.completeTransfer
    simp only [Bool.not_true, if_false]
    cases h : pending.find? (fun t => t.connectionId == cid) with
    | none => simp
    | some t => simpa using ((List.filter_sublist pending).map (fun t => t.connectionId))
  | completeNoId =>
    simp only [Twilio.applyOp, Twilio.pushedRecord, Option.toList, recIds, List.append_nil]
    unfold Twilio.completeTransfer
    simp
  | removeParticipant cid =>
    simp only [Twilio.applyOp, Twilio.pushedRecord, Option.toList, recIds, List.append_nil]
    unfold Twilio.removeFromConference
    simp only [Bool.not_true, if_false]
    cases h : pending.find? (fun t => t.connectionId == cid) with
    | none => simp
    | some t => simpa using ((List.filter_sublist pending).map (fun t => t.connectionId))
  | merge =>
    simp only [Twilio.applyOp, Twilio.pushedRecord, Option.toList, recIds, List.append_nil]
    cases h : Twilio.mergeConnections true pending with
    | error e => simp
    | ok l =>
      unfold Twilio.mergeConnections at h
      by_cases h1 : pending.length < 1
      · simp [h1] at h
      · simp [h1] at h
        cases h
        rw [List.map_map]
        have hc : ((fun t : TransferRecord => t.connectionId) ∘ setConference) =
            (fun t : TransferRecord => t.connectionId) := rfl
        rw [hc]
        simp

theorem recIds_foldl_sublist (ops : List Twilio.LedgerOp) :
    ∀ pending, (recIds (ops.foldl Twilio.applyOp pending)).Sublist
      (recIds pending ++ recIds (Twilio.insertedRecords ops)) := by
  induction ops with
  | nil => intro pending; simp [Twilio.insertedRecords]
  | cons op ops ih =>
    intro pending
    refine (ih (Twilio.applyOp pending op)).trans ?_
    have h3 : Twilio.insertedRecords (op :: ops) =
        (Twilio.pushedRecord op).toList ++ Twilio.insertedRecords ops := by
      cases hp : Twilio.pushedRecord op <;>
        simp [Twilio.insertedRecords, List.filterMap_cons, hp]
    have h4 : recIds ((Twilio.pushedRecord op).toList ++ Twilio.insertedRecords ops) =
        recIds (Twilio.pushedRecord op).toList ++ recIds (Twilio.insertedRecords ops) := by
      simp [recIds]
    rw [h3, h4, ← List.append_assoc]
    exact (recIds_applyOp_sublist pending op).append (List.Sublist.refl _)

theorem runOps_ids_sublist (ops : List Twilio.LedgerOp) :
    (recIds (Twilio.runOps ops)).Sublist (recIds (Twilio.insertedRecords ops)) := by
  have h := recIds_foldl_sublist ops []
  simpa [Twilio.runOps, recIds] using h

theorem twilioLedger_order (ops : List Twilio.LedgerOp)
    (sid fromN : String) (ext : Option String) :
    ∃ parts : List Twilio.ConnInfo,
      Twilio.getActiveConnections (some ⟨sid, fromN⟩) ext (Twilio.runOps ops) =
        .ok (Twilio.agentLeg sid ext :: Twilio.customerLeg sid fromN :: parts) ∧
      (Twilio.agentLeg sid ext).ctype = "agent" ∧
      (Twilio.customerLeg sid fromN).ctype = "customer" ∧
      (∀ p ∈ parts, p.ctype = "participant") ∧
      (parts.map (fun p => p.connectionId)).Sublist (recIds (Twilio.insertedRecords ops)) := by
  refine ⟨Twilio.participantLegs (Twilio.runOps ops), rfl, rfl, rfl, ?_, ?_⟩
  · intro p hp
    rcases List.mem_map.mp hp with ⟨t, _, rfl⟩
    rfl
  · have h1 : (Twilio.participantLegs (Twilio.runOps ops)).map (fun p => p.connectionId) =
        recIds ((Twilio.runOps ops).filter (fun t => t.isConference)) := by
      unfold Twilio.participantLegs recIds
      rw [List.map_map]
      rfl
    rw [h1]
    exact ((List.filter_sublist _).map _).trans (runOps_ids_sublist ops)

/-- Concrete customer (initial/inbound) connection used for claim C4. -/
def c4Customer : AC.Connection := ⟨"cust-1", "inbound", "connected"⟩

/-- Concrete agent connection used for claim C4. -/
def c4Agent : AC.Connection := ⟨"agent-1", "agent", "connected"⟩

/-- Concrete contact for claim C4: a customer leg and an agent leg, the
customer leg being the initial connection. -/
def c4Contact : AC.Contact := ⟨[c4Customer, c4Agent], some c4Agent, some c4Customer.connectionId⟩

/-- Claim C3 counterexample: with an active contact whose vendor agent-leg
destruction fails, endContact rejects and the complete-and-exit-ACW sub-step
is never attempted: the await chain short-circuits on the first failure,
contrary to the claim that the second sub-step is still attempted. -/
theorem claim_C3_counterexample :
    (AC.endContact true true false "vendor timeout" true "" true true true "").completeAttempted
        = false ∧
    (AC.endContact true true false "vendor timeout" true "" true true true "").result =
      .error ("Failed to end contact: " ++ "Error: " ++
        ("Failed to destroy agent connection: " ++ "vendor timeout")) :=
  ⟨rfl, rfl⟩

/-- Claim C3 (amended): endContact runs its two sub-steps in sequence: the
destroy-agent-leg step is always attempted, the complete-and-exit-ACW step
is attempted exactly when the first step succeeded (no agent connection to
destroy, or vendor destroy success), the call resolves exactly when every
step succeeded, and any sub-step failure is surfaced as a rejection. -/
theorem claim_C3_amended (agentConnPresent destroyOk : Bool) (destroyErr : String)
    (completeOk : Bool) (completeErr : String) (agentPresent routablePresent setStateOk : Bool)
    (setStateErr : String) :
    (AC.endContact true agentConnPresent destroyOk destroyErr completeOk completeErr
        agentPresent routablePresent setStateOk setStateErr).destroyAttempted = true ∧
    (AC.endContact true agentConnPresent destroyOk destroyErr completeOk completeErr
        agentPresent routablePresent setStateOk setStateErr).completeAttempted =
      (!agentConnPresent || destroyOk) ∧
    exceptOk (AC.endContact true agentConnPresent destroyOk destroyErr completeOk completeErr
        agentPresent routablePresent setStateOk setStateErr).result =
      ((!agentConnPresent || destroyOk) && completeOk && agentPresent && routablePresent
        && setStateOk) := by
  cases agentConnPresent <;> cases destroyOk <;> cases completeOk <;> cases agentPresent <;>
    cases routablePresent <;> cases setStateOk <;> simp [AC.endContact, exceptOk]

/-- Claim C4 counterexample: in the Amazon Connect binding,
removeFromConference called with the id of the initial (customer) connection
invokes the vendor destroy on that very connection and resolves: the
customer leg is removable via conference-removal. -/
theorem claim_C4_counterexample :
    (AC.removeFromConference (some c4Contact) "cust-1" true "" []).destroyedId =
      c4Contact.initialConnectionId ∧
    c4Contact.initialConnectionId = some c4Customer.connectionId ∧
    (AC.removeFromConference (some c4Contact) "cust-1" true "" []).res = .ok true :=
  ⟨rfl, rfl, rfl⟩

/-- Claim C4 (amended): conference-removal selects by connection id only,
with no role restriction: in the Amazon Connect binding the destroy call
goes to whichever connection matches the id, whatever its role, including
the customer leg; in the Twilio binding only pending participant records are
candidates, so the agent and customer entries survive every
removeFromConference call. -/
theorem claim_C4_amended (c : AC.Contact) (cid : String) (destroyOk : Bool)
    (destroyErr : String) (pending : List TransferRecord)
    (cidT : String) (pendingT : List TransferRecord) (sid fromN : String)
    (ext : Option String) :
    (AC.removeFromConference (some c) cid destroyOk destroyErr pending).destroyedId =
      (c.connections.find? (fun conn => conn.connectionId == cid)).map
        (fun conn => conn.connectionId) ∧
    (∃ parts, Twilio.getActiveConnections (some ⟨sid, fromN⟩) ext
        (Twilio.removeFromConference true cidT pendingT).2 =
      .ok (Twilio.agentLeg sid ext :: Twilio.customerLeg sid fromN :: parts)) := by
  constructor
  · cases h : c.connections.find? (fun conn => conn.connectionId == cid) with
    | none => simp [AC.removeFromConference, h]
    | some conn => cases destroyOk <;> simp [AC.removeFromConference, h]
  · exact ⟨Twilio.participantLegs (Twilio.removeFromConference true cidT pendingT).2, rfl⟩

/-- Concrete agent connection used for claim C5. -/
def c5Agent : AC.Connection := ⟨"agent-1", "agent", "connected"⟩

/-- Concrete contact for claim C5: customer, agent and one participant leg. -/
def c5Contact : AC.Contact :=
  ⟨[⟨"cust-1", "inbound", "connected"⟩, c5Agent, ⟨"part-1", "outbound", "connected"⟩],
    some c5Agent, some "cust-1"⟩

/-- Concrete pending transfer record for claim C5. -/
def c5Rec : TransferRecord := ⟨"part-1", some "+15551234567", none, none, false, 42⟩

/-- Claim C5 counterexample: completeTransfer with an explicit connectionId
whose vendor-side agent-leg destruction fails rejects, yet its pending
record was already removed: the ledger is not left as it was before the
operation. -/
theorem claim_C5_counterexample :
    exceptOk (AC.completeTransfer (some c5Contact) (some "part-1") false "destroy refused"
        [c5Rec]).res = false ∧
    (AC.completeTransfer (some c5Contact) (some "part-1") false "destroy refused" [c5Rec]).pending
        = [] ∧
    ([] : List TransferRecord) ≠ [c5Rec] :=
  ⟨rfl, rfl, by decide⟩

/-- Claim C5 (amended): a rejecting completeTransfer leaves the pending
records unchanged on every path except the explicit-connectionId path with a
vendor destroy failure, where the matching record has already been filtered
out when the rejection is surfaced. -/
theorem claim_C5_amended (contact : Option AC.Contact) (cid : Option String)
    (destroyOk : Bool) (destroyErr : String) (pending : List TransferRecord) :
    exceptOk (AC.completeTransfer contact cid destroyOk destroyErr pending).res = false →
      (AC.completeTransfer contact cid destroyOk destroyErr pending).pending = pending ∨
      (∃ id, cid = some id ∧
        (AC.completeTransfer contact cid destroyOk destroyErr pending).pending =
          pending.filter (fun t => t.connectionId != id)) := by
  intro hrej
  cases contact with
  | none => left; rfl
  | some c =>
    cases cid with
    | none =>
      cases hag : c.agentConnection with
      | none => simp [AC.completeTransfer, hag, exceptOk] at hrej
      | some a =>
        cases destroyOk with
        | true => simp [AC.completeTransfer, hag, exceptOk] at hrej
        | false => left; simp [AC.completeTransfer, hag]
    | some id =>
      cases hf : c.connections.find? (fun conn => conn.connectionId == id) with
      | none => left; simp [AC.completeTransfer, hf]
      | some conn =>
        cases hag : c.agentConnection with
        | none => simp [AC.completeTransfer, hf, hag, exceptOk] at hrej
        | some a =>
          cases destroyOk with
          | true => simp [AC.completeTransfer, hf, hag, exceptOk] at hrej
          | false => right; exact ⟨id, rfl, by simp [AC.completeTransfer, hf, hag]⟩

/-- Witness for the amended claim C5 at a concrete input. -/
theorem claim_C5_amended_witness :
    (AC.completeTransfer (some c5Contact) (some "part-1") false "destroy refused" [c5Rec]).pending
        = [c5Rec] ∨
    (∃ id, (some "part-1" : Option String) = some id ∧
      (AC.completeTransfer (some c5Contact) (some "part-1") false "destroy refused"
          [c5Rec]).pending = [c5Rec].filter (fun t => t.connectionId != id)) :=
  claim_C5_amended (some c5Contact) (some "part-1") false "destroy refused" [c5Rec] rfl

/-- Concrete pending records used for claim C6. -/
def c6Rec1 : TransferRecord := ⟨"conn-1", some "+15550000001", none, none, false, 1⟩

/-- Second concrete pending record used for claim C6, appended after the
first. -/
def c6Rec2 : TransferRecord := ⟨"conn-2", none, some "queue-9", none, false, 2⟩

/-- Concrete agent connection used for claim C6. -/
def c6Agent : AC.Connection := ⟨"agent-1", "agent", "connected"⟩

/-- Concrete contact used for claim C6. -/
def c6Contact : AC.Contact := ⟨[c6Agent], some c6Agent, none⟩

/-- Claim C6: completeTransfer without a connectionId targets the most
recently appended pending record (the element at index length-1 in the
Twilio binding, which selects one) and, upon resolving, leaves zero pending
records in both bindings. -/
theorem claim_C6_completeTransfer_noId (pending pendingAC : List TransferRecord)
    (c : AC.Contact) (destroyOk : Bool) (destroyErr : String) :
    (Twilio.completeTransfer true none pending).res = .ok true ∧
    (Twilio.completeTransfer true none pending).pending = [] ∧
    (Twilio.completeTransfer true none pending).target = pending.getLast? ∧
    (exceptOk (AC.completeTransfer (some c) none destroyOk destroyErr pendingAC).res = true →
      (AC.completeTransfer (some c) none destroyOk destroyErr pendingAC).pending = []) := by
  refine ⟨rfl, rfl, rfl, ?_⟩
  intro hok
  cases hag : c.agentConnection with
  | none => simp [AC.completeTransfer, hag]
  | some a =>
    cases destroyOk with
    | true => simp [AC.completeTransfer, hag]
    | false => simp [AC.completeTransfer, hag, exceptOk] at hok

/-- Witness for claim C6 at a concrete input: with two pending records the
selected transfer is the second (most recently appended) one, and a
resolving Amazon Connect completeTransfer leaves no pending record. -/
theorem claim_C6_witness :
    (Twilio.completeTransfer true none [c6Rec1, c6Rec2]).target = some c6Rec2 ∧
    (AC.completeTransfer (some c6Contact) none true "" [c6Rec1]).pending = [] := by
  constructor
  · exact ((claim_C6_completeTransfer_noId [c6Rec1, c6Rec2] [c6Rec1] c6Contact true "").2.2.1).trans
      (by rfl)
  · exact (claim_C6_completeTransfer_noId [c6Rec1, c6Rec2] [c6Rec1] c6Contact true "").2.2.2 rfl

/-- Concrete agent connection used for claim C7, currently on hold. -/
def c7Conn : AC.Connection := ⟨"agent-1", "agent", "hold"⟩

/-- Concrete contact used for claim C7. -/
def c7Contact : AC.Contact := ⟨[c7Conn], some c7Conn, none⟩

/-- Claim C7: with an active contact and an agent connection present,
holdCall resolves exactly when the agent-leg status is connected (and the
vendor action succeeds); any other status rejects with the
wrong-connection-state message naming both statuses.  Symmetrically,
resumeCall requires status hold.  The source performs no ledger mutation on
either path. -/
theorem claim_C7_hold_resume_status (c : AC.Contact) (conn : AC.Connection)
    (vendorOk : Bool) (vendorErr : String) (h : c.agentConnection = some conn) :
    ((∃ m, AC.holdCall (some c) vendorOk vendorErr = .ok m) ↔
      (conn.status = "connected" ∧ vendorOk = true)) ∧
    (conn.status ≠ "connected" →
      AC.holdCall (some c) vendorOk vendorErr =
        .error ("Connection is in " ++ quoteChar ++ conn.status ++ quoteChar ++ " state, but "
          ++ quoteChar ++ "connected" ++ quoteChar ++ " is required to " ++ "hold" ++ ".")) ∧
    ((∃ m, AC.resumeCall (some c) vendorOk vendorErr = .ok m) ↔
      (conn.status = "hold" ∧ vendorOk = true)) ∧
    (conn.status ≠ "hold" →
      AC.resumeCall (some c) vendorOk vendorErr =
        .error ("Connection is in " ++ quoteChar ++ conn.status ++ quoteChar ++ " state, but "
          ++ quoteChar ++ "hold" ++ quoteChar ++ " is required to " ++ "resume" ++ ".")) := by
  unfold AC.holdCall AC.resumeCall AC.handleCallAction
  simp only [h]
  refine ⟨?_, ?_, ?_, ?_⟩
  · by_cases hs : conn.status = "connected"
    · cases vendorOk <;> simp [hs]
    · simp [hs]
  · intro hs
    simp [hs]
  · by_cases hs : conn.status = "hold"
    · cases vendorOk <;> simp [hs]
    · simp [hs]
  · intro hs
    simp [hs]

/-- Witness for claim C7 at a concrete input: the agent leg is on hold, so
holdCall cannot resolve and rejects with the wrong-state message, while
resumeCall can resolve. -/
theorem claim_C7_witness :
    ((∃ m, AC.holdCall (some c7Contact) true "e" = .ok m) ↔
      (c7Conn.status = "connected" ∧ true = true)) ∧
    (c7Conn.status ≠ "connected" →
      AC.holdCall (some c7Contact) true "e" =
        .error ("Connection is in " ++ quoteChar ++ c7Conn.status ++ quoteChar ++ " state, but "
          ++ quoteChar ++ "connected" ++ quoteChar ++ " is required to " ++ "hold" ++ ".")) ∧
    ((∃ m, AC.resumeCall (some c7Contact) true "e" = .ok m) ↔
      (c7Conn.status = "hold" ∧ true = true)) ∧
    (c7Conn.status ≠ "hold" →
      AC.resumeCall (some c7Contact) true "e" =
        .error ("Connection is in " ++ quoteChar ++ c7Conn.status ++ quoteChar ++ " state, but "
          ++ quoteChar ++ "hold" ++ quoteChar ++ " is required to " ++ "resume" ++ ".")) :=
  claim_C7_hold_resume_status c7Contact c7Conn true "e" rfl

/-- Claim C8 counterexample: the Twilio completeAfterCallWork performs no
contact-instance check: with no active contact, no disposition argument and
a healthy agent worker it resolves instead of rejecting. -/
theorem claim_C8_counterexample :
    Twilio.completeAfterCallWork false none true true true "" = .ok true := rfl

/-- Claim C8 (amended): with no active contact every Amazon Connect contract
operation rejects with its no-contact message (transferToPhoneNumber with a
message containing the text No contact instance available), and the Twilio
completeAfterCallWork rejects when a disposition must be written; but
without a disposition the Twilio completeAfterCallWork resolves even with no
contact. -/
theorem claim_C8_amended (vendorOk : Bool) (e1 : String) (d : Option String)
    (uOk : Bool) (e2 : String) (cOk : Bool) (e3 : String)
    (agentPresent availOk updOk : Bool) (uerr : String)
    (pending : List TransferRecord) (cid : String) (destroyOk : Bool) :
    AC.transferToPhoneNumber none vendorOk e1 =
      .error ("No contact instance available" ++ " for transfer.") ∧
    AC.completeAfterCallWork none d uOk e2 cOk e3 = .error "No contact instance available." ∧
    AC.mergeConnections none vendorOk e1 pending =
      .error "No contact instance available for merging connections." ∧
    (AC.completeTransfer none (some cid) destroyOk e1 pending).res =
      .error "No contact instance available to complete transfer." ∧
    (AC.removeFromConference none cid destroyOk e1 pending).res =
      .error "No active contact available." ∧
    AC.holdCall none vendorOk e1 = .error "No contact instance available." ∧
    (AC.endContact false true destroyOk e1 cOk e3 agentPresent availOk updOk uerr).result =
      .error "No contact instance available to end." ∧
    exceptOk (Twilio.completeAfterCallWork false (some "resolved") agentPresent availOk updOk
      uerr) = false ∧
    Twilio.completeAfterCallWork false none true true true "" = .ok true :=
  ⟨rfl, rfl, rfl, rfl, rfl, rfl, rfl, rfl, rfl⟩

namespace AC

/-- One element of the list getActiveConnections resolves with in the Amazon
Connect binding: the per-connection projection of connectionId, type and
state, with isInitial and isAgent comparing the connection against the
initial and agent connections of the contact. -/
structure ConnInfo where
  connectionId : String
  ctype : String
  status : String
  isInitial : Bool
  isAgent : Bool
deriving DecidableEq

/-- getActiveConnections of the Amazon Connect binding: a plain map over the
vendor getConnections list, in the vendor order, with no reordering and no
filtering; isInitial and isAgent mark the initial (customer) and agent legs
wherever the vendor placed them. -/
def getActiveConnections (contact : Option Contact) : Except String (List ConnInfo) :=
  match contact with
  | none => .error "No active contact available."
  | some c =>
    .ok (c.connections.map (fun conn =>
      ⟨conn.connectionId, conn.ctype, conn.status,
        c.initialConnectionId == some conn.connectionId,
        match c.agentConnection with
        | some a => a.connectionId == conn.connectionId
        | none => false⟩))

end AC

/-- Contact whose vendor connection list reports the customer (initial)
connection first and the agent connection second: the ordering the
repository unit test mock itself uses for getConnections. -/
def c2acContact : AC.Contact :=
  ⟨[⟨"conn-123", "inbound", "connected"⟩, ⟨"agent-conn-123", "agent", "connected"⟩],
    some ⟨"agent-conn-123", "agent", "connected"⟩, some "conn-123"⟩

/-- Claim C2 counterexample: the Amazon Connect getActiveConnections returns
the vendor list unchanged, so when the vendor reports the customer leg first
the first returned entry is the initial (customer) leg, not the agent leg:
the agent-first ordering does not hold in that binding. -/
theorem claim_C2_counterexample :
    AC.getActiveConnections (some c2acContact) =
      .ok [⟨"conn-123", "inbound", "connected", true, false⟩,
           ⟨"agent-conn-123", "agent", "connected", false, true⟩] := rfl

/-- Claim C2 (amended): in the Twilio binding getActiveConnections returns
the agent leg first, the customer leg second, then the participant legs in
insertion order, for any sequence of ledger operations; the Amazon Connect
binding returns a per-leg projection of the vendor getConnections list in
the vendor order (same connection ids at every position), so its ordering is
whatever the vendor reports, with no agent-first guarantee of its own. -/
theorem claim_C2_amended (ops : List Twilio.LedgerOp) (sid fromN : String)
    (ext : Option String) (c : AC.Contact) :
    (∃ parts : List Twilio.ConnInfo,
      Twilio.getActiveConnections (some ⟨sid, fromN⟩) ext (Twilio.runOps ops) =
        .ok (Twilio.agentLeg sid ext :: Twilio.customerLeg sid fromN :: parts) ∧
      (Twilio.agentLeg sid ext).ctype = "agent" ∧
      (Twilio.customerLeg sid fromN).ctype = "customer" ∧
      (∀ p ∈ parts, p.ctype = "participant") ∧
      (parts.map (fun p => p.connectionId)).Sublist (recIds (Twilio.insertedRecords ops))) ∧
    (∃ l, AC.getActiveConnections (some c) = .ok l ∧
      l.map (fun i => i.connectionId) = c.connections.map (fun conn => conn.connectionId)) := by
  constructor
  · exact twilioLedger_order ops sid fromN ext
  · refine ⟨_, rfl, ?_⟩
    rw [List.map_map]
    rfl
